import Mathlib

/-!
Shallow embedding of the acrtransfer CLI extension
(src/acrtransfer/azext_acrtransfer): the argument validators, the
pipeline-run creation / listing / bulk-cleanup operations, the three
delete operations and the advisory resource-id extractors, together with
theorems checking the specification's claims about them.

Remote management-client calls are modelled by passing the outcome the
call would have (an Except value, or the listed collection) as an
argument; raised CLI errors become an Except error result; in-place
namespace mutation becomes returning the updated namespace.
-/

namespace AcrTransfer

/-- Structured CLI errors (azure.cli.core.azclierror) that the extension raises. -/
inductive AzCliError where
  | invalidArgumentValue (msg : String)
  | resourceNotFound (msg : String)
  | requiredArgumentMissing (msg : String)
  deriving Repr, DecidableEq

/-- Exceptions a management-client call may raise: the first five model the
exception classes named in the source imports, otherException stands for every
other Python exception (all are caught by the bare except clauses). -/
inductive ClientException where
  | clientRequestError
  | azureConnectionError
  | azureResponseError
  | azureInternalError
  | resourceNotFoundError
  | otherException (msg : String)
  deriving Repr, DecidableEq

/-- Fields of the parsed-argument namespace that the validators modelled here
read or rewrite (_validators.py). -/
structure ArgNamespace where
  storage_access_mode : String
  keyvault_secret_uri : Option String
  user_assigned_identity_resource_id : Option String
  deriving Repr, DecidableEq

/-- Boolean substring containment, modelling the Python in operator on strings. -/
def strIn (needle hay : String) : Bool :=
  decide (needle.data <:+: hay.data)

/-- Model of Python str.lower, character by character (both sides treated at
ascii precision). -/
def pyLower (s : String) : String :=
  String.mk (s.data.map Char.toLower)

/-- Python single-character membership c in s. -/
def strHasChar (s : String) (c : Char) : Bool :=
  s.data.contains c

deriving instance DecidableEq for Except

/-- Embedding of validate_storage_access_mode_and_secret_uri (_validators.py
lines 38-57). The namespace rewrite happens before the secret-uri check, as in
the source; a raise aborts, so the error carries no namespace. -/
def validate_storage_access_mode_and_secret_uri (ns : ArgNamespace) :
    Except AzCliError ArgNamespace :=
  let storage_access_mode := ns.storage_access_mode
  let secret_uri := ns.keyvault_secret_uri
  if ¬ (storage_access_mode = "entra-mi-auth" ∨ storage_access_mode = "storage-sas-token") then
    .error (.invalidArgumentValue ("Invalid storage access mode " ++ storage_access_mode ++
      ". Allowed values: entra-mi-auth, storage-sas-token"))
  else if storage_access_mode = "entra-mi-auth" then
    let ns := { ns with storage_access_mode := "ManagedIdentity" }
    match secret_uri with
    | some _ => .error (.invalidArgumentValue
        "The --secret-uri flag cannot be supplied when entra-mi-auth is chosen for the flag --storage-access-mode.")
    | none => .ok ns
  else if storage_access_mode = "storage-sas-token" then
    let ns := { ns with storage_access_mode := "SasToken" }
    match secret_uri with
    | none => .error (.invalidArgumentValue
        "--secret-uri is required when --storage-access-mode is storage-sas-token")
    | some _ => .ok ns
  else
    .ok ns

/-- Embedding of validate_user_assigned_identity_resource_id (_validators.py
lines 60-76): returns the updated namespace and whether a warning was logged
(the function never raises). -/
def validate_user_assigned_identity_resource_id (ns : ArgNamespace) :
    ArgNamespace × Bool :=
  match ns.user_assigned_identity_resource_id with
  | none => (ns, false)
  | some identity_id =>
    if pyLower identity_id = "[system]" then
      ({ ns with user_assigned_identity_resource_id := none }, false)
    else
      (ns, !(strIn "/providers/Microsoft.ManagedIdentity/userAssignedIdentities/" identity_id))

/-- Optional source/target block of a pipeline resource, holding the storage
access mode the run-creation code reads for its advisory message. -/
structure PipelineProps where
  storage_access_mode : Option String
  deriving Repr, DecidableEq

/-- Import pipeline resource as read back by the client in create_pipelinerun. -/
structure ImportPipelineResource where
  id : String
  source : Option PipelineProps
  deriving Repr, DecidableEq

/-- Export pipeline resource as read back by the client in create_pipelinerun. -/
structure ExportPipelineResource where
  id : String
  target : Option PipelineProps
  deriving Repr, DecidableEq

/-- PipelineRunSourceProperties payload (vendored SDK model). -/
structure PipelineRunSourceProperties where
  name : String
  deriving Repr, DecidableEq

/-- PipelineRunTargetProperties payload (vendored SDK model). -/
structure PipelineRunTargetProperties where
  name : String
  deriving Repr, DecidableEq

/-- PipelineRunRequest payload (vendored SDK model). -/
structure PipelineRunRequest where
  pipeline_resource_id : String
  source : Option PipelineRunSourceProperties
  target : Option PipelineRunTargetProperties
  artifacts : Option (List String)
  deriving Repr, DecidableEq

/-- PipelineRun payload handed to begin_create (vendored SDK model). -/
structure PipelineRun where
  request : PipelineRunRequest
  force_update_tag : Option String
  deriving Repr, DecidableEq

/-- Per-artifact tag normalization in create_pipelinerun (pipelinerun.py line
57): append ":latest" when the artifact contains neither ":" nor "@". -/
def addLatestTag (artifact : String) : String :=
  if !strHasChar artifact ':' && !strHasChar artifact '@' then artifact ++ ":latest"
  else artifact

/-- Embedding of create_pipelinerun (pipelinerun.py lines 15-70). The two
possible client reads become the import_fetch / export_fetch arguments
(only the one matching pipeline_type is consulted, as in the source);
time_now stands for str(time.time()); the result is the PipelineRun payload
submitted to begin_create. -/
def create_pipelinerun (pipeline_type : String)
    (import_fetch : Except ClientException ImportPipelineResource)
    (export_fetch : Except ClientException ExportPipelineResource)
    (resource_group_name registry_name pipeline_name storage_blob_name : String)
    (artifacts : Option (List String)) (force_update_tag : Bool) (time_now : String) :
    Except AzCliError PipelineRun :=
  let force_update_tag_str : Option String := if force_update_tag then some time_now else none
  if pipeline_type = "import" then
    match import_fetch with
    | .error _ =>
      .error (.resourceNotFound ("Import pipeline " ++ pipeline_name ++
        " not found on registry " ++ registry_name ++ " in the " ++
        resource_group_name ++ " resource group."))
    | .ok raw_result =>
      .ok { request := { pipeline_resource_id := raw_result.id,
                         source := some { name := storage_blob_name },
                         target := none,
                         artifacts := none },
            force_update_tag := force_update_tag_str }
  else
    match export_fetch with
    | .error _ =>
      .error (.resourceNotFound ("Export pipeline " ++ pipeline_name ++
        " not found on registry " ++ registry_name ++ " in the " ++
        resource_group_name ++ " resource group."))
    | .ok raw_result =>
      match artifacts with
      | none =>
        .error (.requiredArgumentMissing
          "artifacts cannot be null for Export PipelineRuns. Please provide a space-separated list of container images to be exported in the form REPOSITORY:TAG or REPOSITORY@sha256:90659bf80b44ce6be8234e6ff90a1ac34acbeb826903b02cfa0da11c82cbc042.")
      | some artifact_list =>
        .ok { request := { pipeline_resource_id := raw_result.id,
                           source := none,
                           target := some { name := storage_blob_name },
                           artifacts := some (artifact_list.map addLatestTag) },
              force_update_tag := force_update_tag_str }

/-- Pipeline-run list item: the fields of the remote run object that the list
and clean operations read. -/
structure PipelineRunItem where
  name : String
  provisioning_state : String
  deriving Repr, DecidableEq

/-- Python list slice lst[start:] for an arbitrary integer start: a negative
start counts from the end and clamps at 0, a positive start clamps at the
length. -/
def pySliceFrom (l : List α) (start : Int) : List α :=
  if start < 0 then l.drop (Int.toNat (l.length + start))
  else l.drop (Int.toNat start)

/-- Embedding of list_pipelinerun (pipelinerun.py lines 123-133); the client
listing becomes the pipelineruns argument, and top arrives as the integer
int(top) produced. -/
def list_pipelinerun (pipelineruns : List PipelineRunItem) (top : Option Int) :
    List PipelineRunItem :=
  match top with
  | none => pipelineruns
  | some top_int => pySliceFrom pipelineruns (-top_int)

/-- Specification-side notion for claim C3: the last n items of a list, in
their original order. -/
def lastItems (l : List α) (n : Nat) : List α := l.drop (l.length - n)

/-- Exception classes caught per item by the cleanup deletion loop
(pipelinerun.py line 158). -/
def caughtByCleanLoop : ClientException → Bool
  | .clientRequestError => true
  | .azureConnectionError => true
  | .azureResponseError => true
  | .azureInternalError => true
  | .resourceNotFoundError => true
  | .otherException _ => false

/-- Whether an item's begin_delete outcome is a success or an exception the
cleanup loop catches. -/
def okOrCaught (delete : PipelineRunItem → Except ClientException Unit)
    (r : PipelineRunItem) : Bool :=
  match delete r with
  | .ok _ => true
  | .error e => caughtByCleanLoop e

/-- Deletion loop of clean_pipelinerun (pipelinerun.py lines 148-165): walks
the failed runs accumulating the success and failure counters and the names
begin_delete was called on; an exception outside the caught set propagates and
aborts the remaining deletions. -/
def cleanLoop (delete : PipelineRunItem → Except ClientException Unit) :
    List PipelineRunItem → Nat → Nat → List String →
    Except ClientException (Nat × Nat × List String)
  | [], succ_count, failed_count, delete_calls =>
    .ok (succ_count, failed_count, delete_calls)
  | r :: rest, succ_count, failed_count, delete_calls =>
    match delete r with
    | .ok _ => cleanLoop delete rest (succ_count + 1) failed_count (delete_calls ++ [r.name])
    | .error e =>
      if caughtByCleanLoop e then
        cleanLoop delete rest succ_count (failed_count + 1) (delete_calls ++ [r.name])
      else
        .error e

/-- Observable outcome of clean_pipelinerun: the value returned to the caller,
the final success and failure counters, and the names begin_delete was called
on, in order. -/
structure CleanOutcome where
  returned : Option (List PipelineRunItem)
  succ_count : Nat
  failed_count : Nat
  delete_calls : List String
  deriving Repr, DecidableEq

/-- Embedding of clean_pipelinerun (pipelinerun.py lines 136-167). The client
listing becomes pipelineruns; delete gives the outcome each begin_delete call
would have. -/
def clean_pipelinerun (delete : PipelineRunItem → Except ClientException Unit)
    (pipelineruns : List PipelineRunItem) (dry_run : Bool) :
    Except ClientException CleanOutcome :=
  let failed_pipelineruns := pipelineruns.filter (fun x => x.provisioning_state == "Failed")
  if dry_run then
    .ok { returned := some failed_pipelineruns, succ_count := 0, failed_count := 0,
          delete_calls := [] }
  else
    match cleanLoop delete failed_pipelineruns 0 0 [] with
    | .ok (s, f, calls) =>
      .ok { returned := none, succ_count := s, failed_count := f, delete_calls := calls }
    | .error e => .error e

/-- Handle of a long-running delete, returned unresolved by begin_delete:
holding the arguments of the call, never a completed result. -/
inductive LroHandle where
  | beginDelete (resource_group_name registry_name resource_name : String)
  deriving Repr, DecidableEq

/-- Embedding of delete_importpipeline (importpipeline.py lines 136-149); the
pre-check read becomes get_result; on a successful read the unawaited
begin_delete handle is returned. -/
def delete_importpipeline (get_result : Except ClientException ImportPipelineResource)
    (resource_group_name registry_name import_pipeline_name : String) :
    Except AzCliError LroHandle :=
  match get_result with
  | .error _ =>
    .error (.resourceNotFound ("Import pipeline " ++ import_pipeline_name ++
      " not found on registry " ++ registry_name ++ " in the " ++
      resource_group_name ++ " resource group."))
  | .ok _ =>
    .ok (.beginDelete resource_group_name registry_name import_pipeline_name)

/-- Embedding of delete_exportpipeline (exportpipeline.py lines 135-148). -/
def delete_exportpipeline (get_result : Except ClientException ExportPipelineResource)
    (resource_group_name registry_name export_pipeline_name : String) :
    Except AzCliError LroHandle :=
  match get_result with
  | .error _ =>
    .error (.resourceNotFound ("Export pipeline " ++ export_pipeline_name ++
      " not found on registry " ++ registry_name ++ " in the " ++
      resource_group_name ++ " resource group."))
  | .ok _ =>
    .ok (.beginDelete resource_group_name registry_name export_pipeline_name)

/-- Embedding of delete_pipelinerun (pipelinerun.py lines 107-120). -/
def delete_pipelinerun (get_result : Except ClientException PipelineRunItem)
    (resource_group_name registry_name pipeline_run_name : String) :
    Except AzCliError LroHandle :=
  match get_result with
  | .error _ =>
    .error (.resourceNotFound ("Pipeline-run " ++ pipeline_run_name ++
      " not found on registry " ++ registry_name ++ " in the " ++
      resource_group_name ++ " resource group."))
  | .ok _ =>
    .ok (.beginDelete resource_group_name registry_name pipeline_run_name)

/-- ImportPipelineSourceProperties payload (vendored SDK model), as filled by
create_importpipeline. -/
structure ImportPipelineSourceProperties where
  storage_access_mode : String
  key_vault_uri : Option String
  uri : String
  deriving Repr, DecidableEq

/-- ExportPipelineTargetProperties payload (vendored SDK model), as filled by
create_exportpipeline. -/
structure ExportPipelineTargetProperties where
  storage_access_mode : String
  key_vault_uri : Option String
  uri : String
  type : String
  deriving Repr, DecidableEq

/-- Source-properties construction of create_importpipeline (importpipeline.py
lines 68-78): the uri is lower-cased, and the secret uri is lower-cased when
truthy (non-empty), exactly as the Python if keyvault_secret_uri guard does. -/
def create_importpipeline_source (storage_account_container_uri : String)
    (storage_access_mode : String) (keyvault_secret_uri : Option String) :
    ImportPipelineSourceProperties :=
  let storage_account_container_uri := pyLower storage_account_container_uri
  let keyvault_secret_uri :=
    match keyvault_secret_uri with
    | some s => if s = "" then some s else some (pyLower s)
    | none => none
  { storage_access_mode := storage_access_mode,
    key_vault_uri := keyvault_secret_uri,
    uri := storage_account_container_uri }

/-- Target-properties construction of create_exportpipeline (exportpipeline.py
lines 69-80), with the AzureStorageBlobContainer target type constant. -/
def create_exportpipeline_target (storage_account_container_uri : String)
    (storage_access_mode : String) (keyvault_secret_uri : Option String) :
    ExportPipelineTargetProperties :=
  let storage_account_container_uri := pyLower storage_account_container_uri
  let keyvault_secret_uri :=
    match keyvault_secret_uri with
    | some s => if s = "" then some s else some (pyLower s)
    | none => none
  { storage_access_mode := storage_access_mode,
    key_vault_uri := keyvault_secret_uri,
    uri := storage_account_container_uri,
    type := "AzureStorageBlobContainer" }

/-- Characters allowed in a URL scheme (urllib scheme_chars: ascii letters,
digits and the three characters "+", "-", "."). -/
def schemeChar (c : Char) : Bool :=
  c.isAlpha || c.isDigit || c == '+' || c == '-' || c == '.'

/-- Scheme-splitting step of urllib urlsplit: when the url has a ":" at some
position i > 0, its first character is an ascii letter and every character
before the colon is a scheme character, everything up to and including the
colon is dropped. -/
def dropScheme (url : List Char) : List Char :=
  match url.findIdx? (fun c => c == ':') with
  | some i =>
    if 0 < i ∧ (url.take i).all schemeChar ∧ (url.headD ' ').isAlpha then url.drop (i + 1)
    else url
  | none => url

/-- Netloc extraction of urllib urlsplit: when the scheme-stripped url starts
with "//", the netloc runs until the first "/", "?" or "#"; a url without the
"//" marker has an empty netloc, given here as none. -/
def splitNetloc (url : List Char) : Option (List Char) :=
  match url with
  | '/' :: '/' :: rest => some (rest.takeWhile (fun c => c != '/' && c != '?' && c != '#'))
  | _ => none

/-- Hostname computation from a netloc, as the urllib result property does:
take the part after the last "@", then the bracketed host when a "[" is
present, otherwise everything before the first ":"; an empty hostname is none,
and the result is lower-cased. -/
def hostnameOfNetloc (netloc : List Char) : Option String :=
  let hostinfo := (netloc.reverse.takeWhile (fun c => c != '@')).reverse
  let hostname :=
    if hostinfo.contains '[' then
      ((hostinfo.dropWhile (fun c => c != '[')).drop 1).takeWhile (fun c => c != ']')
    else
      hostinfo.takeWhile (fun c => c != ':')
  if hostname.isEmpty then none
  else some (String.mk (hostname.map Char.toLower))

/-- Model of the Python expression urlparse(uri).hostname as used by the
extractors, with every failure mode folded into none: leading control
characters and spaces are stripped and tab, CR, LF removed; the scheme is
split off; a url without a netloc has hostname None (so the attribute access
raises); a netloc with mismatched square brackets makes urlsplit raise; an
empty hostname is None. All of these land in the extractor's except branch,
hence all map to none here. -/
def parseHostname (uri : String) : Option String :=
  let url := (uri.data.dropWhile (fun c => decide (c.toNat ≤ 32))).filter
    (fun c => c != '\t' && c != '\r' && c != '\n')
  let url := dropScheme url
  match splitNetloc url with
  | none => none
  | some netloc =>
    if (netloc.contains '[') != (netloc.contains ']') then none
    else hostnameOfNetloc netloc

/-- Python hostname.split(".")[0]: the first DNS label of a hostname, i.e.
everything before the first dot. -/
def firstDnsLabel (hostname : String) : String :=
  String.mk (hostname.data.takeWhile (fun c => c != '.'))

/-- Embedding of _extract_storage_account_resource_id (importpipeline.py lines
15-26, duplicated in exportpipeline.py lines 16-27): a total function that
returns the fixed placeholder on any hostname-parse failure and never raises. -/
def _extract_storage_account_resource_id
    (subscription_id resource_group_name container_uri : String) : String :=
  match parseHostname container_uri with
  | none => "<storage-account-resource-id>"
  | some hostname =>
    "/subscriptions/" ++ subscription_id ++ "/resourceGroups/" ++ resource_group_name ++
      "/providers/Microsoft.Storage/storageAccounts/" ++ firstDnsLabel hostname

/-- Embedding of _extract_keyvault_resource_id (importpipeline.py lines 29-39,
duplicated in exportpipeline.py lines 30-40). -/
def _extract_keyvault_resource_id
    (subscription_id resource_group_name keyvault_secret_uri : String) : String :=
  match parseHostname keyvault_secret_uri with
  | none => "<key-vault-resource-id>"
  | some hostname =>
    "/subscriptions/" ++ subscription_id ++ "/resourceGroups/" ++ resource_group_name ++
      "/providers/Microsoft.KeyVault/vaults/" ++ firstDnsLabel hostname

/-- C1: validate_storage_access_mode_and_secret_uri raises an invalid-argument
error for every storage_access_mode outside the two CLI values entra-mi-auth
and storage-sas-token; it raises when the mode is entra-mi-auth and the secret
uri is non-null, and when the mode is storage-sas-token and the secret uri is
null; in the two valid combinations it succeeds and rewrites the namespace
mode field to ManagedIdentity and SasToken respectively. -/
theorem validate_storage_access_mode_and_secret_uri_cases (ns : ArgNamespace) :
    (ns.storage_access_mode ≠ "entra-mi-auth" → ns.storage_access_mode ≠ "storage-sas-token" →
      ∃ m, validate_storage_access_mode_and_secret_uri ns =
        .error (.invalidArgumentValue m)) ∧
    (ns.storage_access_mode = "entra-mi-auth" → ns.keyvault_secret_uri ≠ none →
      ∃ m, validate_storage_access_mode_and_secret_uri ns =
        .error (.invalidArgumentValue m)) ∧
    (ns.storage_access_mode = "storage-sas-token" → ns.keyvault_secret_uri = none →
      ∃ m, validate_storage_access_mode_and_secret_uri ns =
        .error (.invalidArgumentValue m)) ∧
    (ns.storage_access_mode = "entra-mi-auth" → ns.keyvault_secret_uri = none →
      validate_storage_access_mode_and_secret_uri ns =
        .ok { ns with storage_access_mode := "ManagedIdentity" }) ∧
    (ns.storage_access_mode = "storage-sas-token" → ns.keyvault_secret_uri ≠ none →
      validate_storage_access_mode_and_secret_uri ns =
        .ok { ns with storage_access_mode := "SasToken" }) := by
  obtain ⟨mode, kv, uid⟩ := ns
  refine ⟨?_, ?_, ?_, ?_, ?_⟩ <;> intro h1 h2
  · simp [validate_storage_access_mode_and_secret_uri, h1, h2]
  · subst h1
    obtain ⟨s, rfl⟩ := Option.ne_none_iff_exists'.mp h2
    simp [validate_storage_access_mode_and_secret_uri]
  · subst h1; subst h2
    simp [validate_storage_access_mode_and_secret_uri]
  · subst h1; subst h2
    simp [validate_storage_access_mode_and_secret_uri]
  · subst h1
    obtain ⟨s, rfl⟩ := Option.ne_none_iff_exists'.mp h2
    simp [validate_storage_access_mode_and_secret_uri]

/-- Witness for C1: the valid entra-mi-auth combination succeeds and rewrites
the mode to ManagedIdentity. -/
theorem validate_storage_access_mode_and_secret_uri_cases_witness :
    validate_storage_access_mode_and_secret_uri
        { storage_access_mode := "entra-mi-auth", keyvault_secret_uri := none,
          user_assigned_identity_resource_id := none } =
      .ok { storage_access_mode := "ManagedIdentity", keyvault_secret_uri := none,
            user_assigned_identity_resource_id := none } :=
  (validate_storage_access_mode_and_secret_uri_cases
      { storage_access_mode := "entra-mi-auth", keyvault_secret_uri := none,
        user_assigned_identity_resource_id := none }).2.2.2.1 rfl rfl

/-- C6: validate_user_assigned_identity_resource_id is a no-op when the
identity id is absent; a [system] id in any letter case clears the field to
absent; every other id passes through unchanged with at most a warning (it
never raises, as its return type shows). -/
theorem validate_user_assigned_identity_resource_id_cases (ns : ArgNamespace) :
    (ns.user_assigned_identity_resource_id = none →
      validate_user_assigned_identity_resource_id ns = (ns, false)) ∧
    (∀ s, ns.user_assigned_identity_resource_id = some s → pyLower s = "[system]" →
      validate_user_assigned_identity_resource_id ns =
        ({ ns with user_assigned_identity_resource_id := none }, false)) ∧
    (∀ s, ns.user_assigned_identity_resource_id = some s → pyLower s ≠ "[system]" →
      validate_user_assigned_identity_resource_id ns =
        (ns, !(strIn "/providers/Microsoft.ManagedIdentity/userAssignedIdentities/" s))) := by
  refine ⟨?_, ?_, ?_⟩
  · intro h
    simp [validate_user_assigned_identity_resource_id, h]
  · intro s h hsys
    simp [validate_user_assigned_identity_resource_id, h, hsys]
  · intro s h hsys
    simp [validate_user_assigned_identity_resource_id, h, hsys]

/-- Witness for C6: an upper-case [SYSTEM] id is normalized to absent. -/
theorem validate_user_assigned_identity_resource_id_cases_witness :
    validate_user_assigned_identity_resource_id
        { storage_access_mode := "storage-sas-token", keyvault_secret_uri := none,
          user_assigned_identity_resource_id := some "[SYSTEM]" } =
      ({ storage_access_mode := "storage-sas-token", keyvault_secret_uri := none,
         user_assigned_identity_resource_id := none }, false) :=
  (validate_user_assigned_identity_resource_id_cases
      { storage_access_mode := "storage-sas-token", keyvault_secret_uri := none,
        user_assigned_identity_resource_id := some "[SYSTEM]" }).2.1
    "[SYSTEM]" rfl (by decide)

/-- C2: once the export pipeline fetch has succeeded, create_pipelinerun for
the export direction raises a required-argument-missing error whenever
artifacts is null; otherwise every artifact containing neither ":" nor "@"
gains the suffix ":latest" and every other artifact is left unchanged, as on
the example list. -/
theorem create_pipelinerun_export_artifacts
    (imp : Except ClientException ImportPipelineResource) (p : ExportPipelineResource)
    (rg reg pn blob : String) (fu : Bool) (t : String) :
    (create_pipelinerun "export" imp (.ok p) rg reg pn blob none fu t =
      .error (.requiredArgumentMissing
        "artifacts cannot be null for Export PipelineRuns. Please provide a space-separated list of container images to be exported in the form REPOSITORY:TAG or REPOSITORY@sha256:90659bf80b44ce6be8234e6ff90a1ac34acbeb826903b02cfa0da11c82cbc042.")) ∧
    (∀ l, ∃ run, create_pipelinerun "export" imp (.ok p) rg reg pn blob (some l) fu t =
        .ok run ∧ run.request.artifacts = some (l.map addLatestTag)) ∧
    (∀ a, strHasChar a ':' = false → strHasChar a '@' = false →
      addLatestTag a = a ++ ":latest") ∧
    (∀ a, (strHasChar a ':' || strHasChar a '@') = true → addLatestTag a = a) ∧
    ["repo1", "repo2:v2", "repo3@sha256:abc"].map addLatestTag =
      ["repo1:latest", "repo2:v2", "repo3@sha256:abc"] := by
  refine ⟨?_, ?_, ?_, ?_, by decide⟩
  · rfl
  · intro l
    exact ⟨_, rfl, rfl⟩
  · intro a h1 h2
    simp [addLatestTag, h1, h2]
  · intro a h
    rcases Bool.or_eq_true_iff.mp h with h1 | h1 <;> simp [addLatestTag, h1]

/-- Witness for C2: the tag-normalization clauses at concrete artifacts and
the null-artifacts error at a concrete fetched pipeline. -/
theorem create_pipelinerun_export_artifacts_witness :
    create_pipelinerun "export" (.ok { id := "i", source := none })
        (.ok { id := "pid", target := none }) "rg" "reg" "pn" "blob" none false "0" =
      .error (.requiredArgumentMissing
        "artifacts cannot be null for Export PipelineRuns. Please provide a space-separated list of container images to be exported in the form REPOSITORY:TAG or REPOSITORY@sha256:90659bf80b44ce6be8234e6ff90a1ac34acbeb826903b02cfa0da11c82cbc042.") ∧
    addLatestTag "repo1" = "repo1" ++ ":latest" :=
  ⟨(create_pipelinerun_export_artifacts (.ok { id := "i", source := none })
      { id := "pid", target := none } "rg" "reg" "pn" "blob" false "0").1,
   (create_pipelinerun_export_artifacts (.ok { id := "i", source := none })
      { id := "pid", target := none } "rg" "reg" "pn" "blob" false "0").2.2.1
     "repo1" (by decide) (by decide)⟩

/-- C10: in export run creation the pipeline fetch precedes the artifacts
check: when the fetch fails the operation raises a resource-not-found error
whatever artifacts holds (null included), and a required-argument-missing
error can only arise from a successful fetch. -/
theorem create_pipelinerun_export_fetch_precedes_artifacts
    (imp : Except ClientException ImportPipelineResource) (e : ClientException)
    (rg reg pn blob : String) (artifacts : Option (List String)) (fu : Bool) (t : String) :
    (create_pipelinerun "export" imp (.error e) rg reg pn blob artifacts fu t =
      .error (.resourceNotFound ("Export pipeline " ++ pn ++ " not found on registry " ++
        reg ++ " in the " ++ rg ++ " resource group."))) ∧
    (∀ (fetch : Except ClientException ExportPipelineResource) (m : String),
      create_pipelinerun "export" imp fetch rg reg pn blob artifacts fu t =
        .error (.requiredArgumentMissing m) → ∃ p, fetch = .ok p) := by
  constructor
  · rfl
  · intro fetch m h
    cases fetch with
    | ok p => exact ⟨p, rfl⟩
    | error e2 => exact AzCliError.noConfusion (Except.error.inj h)

/-- Witness for C10: a failed fetch with null artifacts yields the
resource-not-found error, not the required-argument one. -/
theorem create_pipelinerun_export_fetch_precedes_artifacts_witness :
    create_pipelinerun "export" (.ok { id := "i", source := none })
        (.error .azureConnectionError) "rg" "reg" "pn" "blob" none false "0" =
      .error (.resourceNotFound ("Export pipeline " ++ "pn" ++ " not found on registry " ++
        "reg" ++ " in the " ++ "rg" ++ " resource group.")) :=
  (create_pipelinerun_export_fetch_precedes_artifacts (.ok { id := "i", source := none })
      .azureConnectionError "rg" "reg" "pn" "blob" none false "0").1

/-- C3 counterexample: top = 0 passes validate_top (int("0") parses), and on a
one-item collection M = 1 > N = 0, yet the code returns the full list, not the
last 0 items, so the claim fails as stated. -/
theorem list_pipelinerun_top_zero_counterexample :
    list_pipelinerun [{ name := "run1", provisioning_state := "Succeeded" }] (some 0) =
      [{ name := "run1", provisioning_state := "Succeeded" }] ∧
    lastItems [({ name := "run1", provisioning_state := "Succeeded" } : PipelineRunItem)]
      (Int.toNat 0) = [] ∧
    ¬ (∀ (runs : List PipelineRunItem) (n : Int), (runs.length : Int) > n →
        list_pipelinerun runs (some n) = lastItems runs n.toNat) := by
  refine ⟨by decide, by decide, fun h => ?_⟩
  have := h [{ name := "run1", provisioning_state := "Succeeded" }] 0 (by decide)
  exact absurd this (by decide)

/-- C3 amended: list_pipelinerun with top = none returns the full untruncated
collection, and for every positive top n returns the last n items of the
listing in their original order, which is the whole collection whenever n is
at least its length. (For top = 0, which validate_top also accepts, the code
returns the full collection rather than the last 0 items.) -/
theorem list_pipelinerun_top_amended (runs : List PipelineRunItem) (n : Int) (hn : 1 ≤ n) :
    list_pipelinerun runs none = runs ∧
    list_pipelinerun runs (some n) = lastItems runs n.toNat ∧
    ((runs.length : Int) ≤ n → list_pipelinerun runs (some n) = runs) := by
  have hpos : -n < 0 := by omega
  refine ⟨rfl, ?_, ?_⟩
  · show pySliceFrom runs (-n) = lastItems runs n.toNat
    rw [pySliceFrom, if_pos hpos, lastItems]
    congr 1
    omega
  · intro hle
    show pySliceFrom runs (-n) = runs
    rw [pySliceFrom, if_pos hpos]
    have h0 : Int.toNat ((runs.length : Int) + -n) = 0 := by omega
    rw [h0, List.drop_zero]

/-- Witness for C3 amended: top = 1 on a two-item collection returns the last
item. -/
theorem list_pipelinerun_top_amended_witness :
    list_pipelinerun [{ name := "a", provisioning_state := "Failed" },
        { name := "b", provisioning_state := "Succeeded" }] (some 1) =
      lastItems [({ name := "a", provisioning_state := "Failed" } : PipelineRunItem),
        { name := "b", provisioning_state := "Succeeded" }] (Int.toNat 1) :=
  (list_pipelinerun_top_amended [{ name := "a", provisioning_state := "Failed" },
      { name := "b", provisioning_state := "Succeeded" }] 1 (by decide)).2.1

/-- Helper for C4: when every outcome on the worklist is a success or a caught
transient error, the cleanup loop calls begin_delete on every item in order
and its final counters add up to the initial counters plus the list length. -/
theorem cleanLoop_all_attempted (delete : PipelineRunItem → Except ClientException Unit) :
    ∀ (l : List PipelineRunItem), (∀ r ∈ l, okOrCaught delete r = true) →
    ∀ (s f : Nat) (calls : List String), ∃ s2 f2,
      cleanLoop delete l s f calls = .ok (s2, f2, calls ++ l.map (fun r => r.name)) ∧
      s2 + f2 = s + f + l.length := by
  intro l
  induction l with
  | nil =>
    intro _ s f calls
    exact ⟨s, f, by simp [cleanLoop], by simp⟩
  | cons r rest ih =>
    intro h s f calls
    have hr := h r (List.mem_cons_self r rest)
    have hrest : ∀ x ∈ rest, okOrCaught delete x = true :=
      fun x hx => h x (List.mem_cons_of_mem r hx)
    cases hd : delete r with
    | ok u =>
      obtain ⟨s2, f2, heq, hsum⟩ := ih hrest (s + 1) f (calls ++ [r.name])
      refine ⟨s2, f2, ?_, by simp only [List.length_cons]; omega⟩
      simp only [cleanLoop, hd, heq, List.map_cons, List.length_cons]
      simp
    | error e =>
      simp only [okOrCaught, hd] at hr
      obtain ⟨s2, f2, heq, hsum⟩ := ih hrest s (f + 1) (calls ++ [r.name])
      refine ⟨s2, f2, ?_, by simp only [List.length_cons]; omega⟩
      simp only [cleanLoop, hd, hr, if_true, heq, List.map_cons]
      simp

/-- C4: clean_pipelinerun with dry_run issues zero delete calls and returns
exactly the sublist of runs whose provisioning state is Failed; in live mode,
when every per-item delete outcome is a success or one of the caught transient
errors, a delete call is made for every filtered item and the final success
plus failure counts equal the filtered set's size. -/
theorem clean_pipelinerun_spec (delete : PipelineRunItem → Except ClientException Unit)
    (runs : List PipelineRunItem) :
    clean_pipelinerun delete runs true =
      .ok { returned := some (runs.filter (fun x => x.provisioning_state == "Failed")),
            succ_count := 0, failed_count := 0, delete_calls := [] } ∧
    ((∀ r ∈ runs.filter (fun x => x.provisioning_state == "Failed"),
        okOrCaught delete r = true) →
      ∃ out, clean_pipelinerun delete runs false = .ok out ∧
        out.returned = none ∧
        out.delete_calls =
          (runs.filter (fun x => x.provisioning_state == "Failed")).map (fun r => r.name) ∧
        out.succ_count + out.failed_count =
          (runs.filter (fun x => x.provisioning_state == "Failed")).length) := by
  constructor
  · rfl
  · intro h
    obtain ⟨s2, f2, heq, hsum⟩ := cleanLoop_all_attempted delete _ h 0 0 []
    refine ⟨{ returned := none, succ_count := s2, failed_count := f2,
              delete_calls :=
                (runs.filter (fun x => x.provisioning_state == "Failed")).map
                  (fun r => r.name) },
            ?_, rfl, rfl, by simpa using hsum⟩
    show (match cleanLoop delete (runs.filter (fun x => x.provisioning_state == "Failed"))
            0 0 [] with
          | .ok (s, f, calls) =>
            (.ok { returned := none, succ_count := s, failed_count := f,
                   delete_calls := calls } : Except ClientException CleanOutcome)
          | .error e => .error e) = _
    rw [heq]
    simp

/-- Witness for C4: a live cleanup where one delete hits a caught connection
error still attempts all filtered items and its counts add up. -/
theorem clean_pipelinerun_spec_witness :
    ∃ out : CleanOutcome, clean_pipelinerun
        (fun r => if r.name == "a" then .error .azureConnectionError else .ok ())
        [{ name := "a", provisioning_state := "Failed" },
         { name := "b", provisioning_state := "Failed" },
         { name := "c", provisioning_state := "Succeeded" }] false = .ok out ∧
      out.returned = none ∧
      out.delete_calls =
        ([({ name := "a", provisioning_state := "Failed" } : PipelineRunItem),
          { name := "b", provisioning_state := "Failed" },
          { name := "c", provisioning_state := "Succeeded" }].filter
            (fun x => x.provisioning_state == "Failed")).map (fun r => r.name) ∧
      out.succ_count + out.failed_count =
        ([({ name := "a", provisioning_state := "Failed" } : PipelineRunItem),
          { name := "b", provisioning_state := "Failed" },
          { name := "c", provisioning_state := "Succeeded" }].filter
            (fun x => x.provisioning_state == "Failed")).length :=
  (clean_pipelinerun_spec
      (fun r => if r.name == "a" then .error .azureConnectionError else .ok ())
      [{ name := "a", provisioning_state := "Failed" },
       { name := "b", provisioning_state := "Failed" },
       { name := "c", provisioning_state := "Succeeded" }]).2 (by decide)

/-- C5: each delete operation (import pipeline, export pipeline, pipeline run)
checks its pre-read first: a failing read becomes a resource-not-found error
whose message carries the resource name, its kind, the registry and the
resource group, and a successful read yields the unawaited begin_delete
long-running-operation handle. -/
theorem delete_operations_spec (rg reg name : String)
    (gi : Except ClientException ImportPipelineResource)
    (ge : Except ClientException ExportPipelineResource)
    (gr : Except ClientException PipelineRunItem) :
    ((∃ e, gi = .error e) → delete_importpipeline gi rg reg name =
      .error (.resourceNotFound ("Import pipeline " ++ name ++ " not found on registry " ++
        reg ++ " in the " ++ rg ++ " resource group."))) ∧
    (∀ p, gi = .ok p → delete_importpipeline gi rg reg name =
      .ok (.beginDelete rg reg name)) ∧
    ((∃ e, ge = .error e) → delete_exportpipeline ge rg reg name =
      .error (.resourceNotFound ("Export pipeline " ++ name ++ " not found on registry " ++
        reg ++ " in the " ++ rg ++ " resource group."))) ∧
    (∀ p, ge = .ok p → delete_exportpipeline ge rg reg name =
      .ok (.beginDelete rg reg name)) ∧
    ((∃ e, gr = .error e) → delete_pipelinerun gr rg reg name =
      .error (.resourceNotFound ("Pipeline-run " ++ name ++ " not found on registry " ++
        reg ++ " in the " ++ rg ++ " resource group."))) ∧
    (∀ p, gr = .ok p → delete_pipelinerun gr rg reg name =
      .ok (.beginDelete rg reg name)) := by
  refine ⟨?_, ?_, ?_, ?_, ?_, ?_⟩
  · rintro ⟨e, rfl⟩; rfl
  · rintro p rfl; rfl
  · rintro ⟨e, rfl⟩; rfl
  · rintro p rfl; rfl
  · rintro ⟨e, rfl⟩; rfl
  · rintro p rfl; rfl

/-- Witness for C5: a not-found read on a pipeline-run delete produces the
not-found error naming run, registry and resource group, and a successful
read produces the delete handle. -/
theorem delete_operations_spec_witness :
    delete_pipelinerun (.error .resourceNotFoundError) "rg1" "reg1" "run1" =
      .error (.resourceNotFound ("Pipeline-run " ++ "run1" ++ " not found on registry " ++
        "reg1" ++ " in the " ++ "rg1" ++ " resource group.")) ∧
    delete_importpipeline (.ok { id := "i", source := none }) "rg1" "reg1" "pipe1" =
      .ok (.beginDelete "rg1" "reg1" "pipe1") :=
  ⟨(delete_operations_spec "rg1" "reg1" "run1" (.ok { id := "i", source := none })
      (.ok { id := "i", target := none }) (.error .resourceNotFoundError)).2.2.2.2.1
     ⟨.resourceNotFoundError, rfl⟩,
   (delete_operations_spec "rg1" "reg1" "pipe1" (.ok { id := "i", source := none })
      (.ok { id := "i", target := none }) (.error .resourceNotFoundError)).2.1
     { id := "i", source := none } rfl⟩

/-- C9: every exception raised by the pre-check read, transient connection and
request errors included, is converted by each delete operation into a
resource-not-found error, so a delete attempted while the read path fails
reports the resource as not found even when it exists. -/
theorem delete_read_failure_reports_not_found (rg reg name : String) (e : ClientException) :
    (∃ m, delete_importpipeline (.error e) rg reg name = .error (.resourceNotFound m)) ∧
    (∃ m, delete_exportpipeline (.error e) rg reg name = .error (.resourceNotFound m)) ∧
    (∃ m, delete_pipelinerun (.error e) rg reg name = .error (.resourceNotFound m)) :=
  ⟨⟨_, rfl⟩, ⟨_, rfl⟩, ⟨_, rfl⟩⟩

/-- C7: both pipeline creates place the lower-cased container uri and, when
present, the lower-cased key-vault secret uri in the source/target properties
of the create request; in particular an already-lower-case uri is stored as
itself. -/
theorem create_pipeline_uris_lowercased (uri mode : String) (kv : Option String) :
    (create_importpipeline_source uri mode kv).uri = pyLower uri ∧
    (create_importpipeline_source uri mode kv).key_vault_uri = kv.map pyLower ∧
    (create_exportpipeline_target uri mode kv).uri = pyLower uri ∧
    (create_exportpipeline_target uri mode kv).key_vault_uri = kv.map pyLower ∧
    (pyLower uri = uri →
      (create_importpipeline_source uri mode kv).uri = uri ∧
      (create_exportpipeline_target uri mode kv).uri = uri) ∧
    (kv.map pyLower = kv →
      (create_importpipeline_source uri mode kv).key_vault_uri = kv ∧
      (create_exportpipeline_target uri mode kv).key_vault_uri = kv) := by
  have hkv : ∀ v : Option String,
      (match v with
       | some s => if s = "" then some s else some (pyLower s)
       | none => none) = v.map pyLower := by
    intro v
    cases v with
    | none => rfl
    | some s =>
      by_cases hs : s = ""
      · subst hs; rfl
      · simp [hs]
  refine ⟨rfl, hkv kv, rfl, hkv kv, fun h => ⟨?_, ?_⟩, fun h => ⟨?_, ?_⟩⟩
  · show pyLower uri = uri; exact h
  · show pyLower uri = uri; exact h
  · rw [show (create_importpipeline_source uri mode kv).key_vault_uri = kv.map pyLower
        from hkv kv, h]
  · rw [show (create_exportpipeline_target uri mode kv).key_vault_uri = kv.map pyLower
        from hkv kv, h]

/-- Witness for C7: a mixed-case container uri is stored lower-cased, and an
already-lower-case uri is stored as itself. -/
theorem create_pipeline_uris_lowercased_witness :
    (create_importpipeline_source "https://acct.blob.core.windows.net/c" "ManagedIdentity"
        none).uri = "https://acct.blob.core.windows.net/c" ∧
    (create_exportpipeline_target "https://acct.blob.core.windows.net/c" "ManagedIdentity"
        none).uri = "https://acct.blob.core.windows.net/c" :=
  (create_pipeline_uris_lowercased "https://acct.blob.core.windows.net/c" "ManagedIdentity"
      none).2.2.2.2.1 (by decide)

/-- C8: the two resource-id extractors are total String-valued functions (they
cannot raise); whenever hostname parsing fails they return the fixed
placeholder strings, and on success they return the fully-qualified resource
id under the matching provider namespace built from the first DNS label of the
parsed hostname. -/
theorem extract_resource_id_spec (sub rg uri : String) :
    (parseHostname uri = none →
      _extract_storage_account_resource_id sub rg uri = "<storage-account-resource-id>" ∧
      _extract_keyvault_resource_id sub rg uri = "<key-vault-resource-id>") ∧
    (∀ h, parseHostname uri = some h →
      _extract_storage_account_resource_id sub rg uri =
        "/subscriptions/" ++ sub ++ "/resourceGroups/" ++ rg ++
          "/providers/Microsoft.Storage/storageAccounts/" ++ firstDnsLabel h ∧
      _extract_keyvault_resource_id sub rg uri =
        "/subscriptions/" ++ sub ++ "/resourceGroups/" ++ rg ++
          "/providers/Microsoft.KeyVault/vaults/" ++ firstDnsLabel h) := by
  constructor
  · intro hN
    constructor
    · rw [_extract_storage_account_resource_id, hN]
    · rw [_extract_keyvault_resource_id, hN]
  · intro h hS
    constructor
    · rw [_extract_storage_account_resource_id, hS]
    · rw [_extract_keyvault_resource_id, hS]

/-- Witness for C8: a mixed-case blob-container uri parses to its lower-cased
hostname and yields the storage and key-vault resource ids from its first
DNS label, and an unparsable string yields the placeholders. -/
theorem extract_resource_id_spec_witness :
    (_extract_storage_account_resource_id "sub1" "rg1"
        "https://MyAccount.blob.core.windows.net/c" =
      "/subscriptions/" ++ "sub1" ++ "/resourceGroups/" ++ "rg1" ++
        "/providers/Microsoft.Storage/storageAccounts/" ++
        firstDnsLabel "myaccount.blob.core.windows.net" ∧
     _extract_keyvault_resource_id "sub1" "rg1"
        "https://MyAccount.blob.core.windows.net/c" =
      "/subscriptions/" ++ "sub1" ++ "/resourceGroups/" ++ "rg1" ++
        "/providers/Microsoft.KeyVault/vaults/" ++
        firstDnsLabel "myaccount.blob.core.windows.net") ∧
    (_extract_storage_account_resource_id "sub1" "rg1" "not a uri" =
      "<storage-account-resource-id>" ∧
     _extract_keyvault_resource_id "sub1" "rg1" "not a uri" =
      "<key-vault-resource-id>") :=
  ⟨(extract_resource_id_spec "sub1" "rg1" "https://MyAccount.blob.core.windows.net/c").2
     "myaccount.blob.core.windows.net" (by decide),
   (extract_resource_id_spec "sub1" "rg1" "not a uri").1 (by decide)⟩

end AcrTransfer
